import Mathlib

/-!
Shallow embedding of `src/integrator_janus.c` (the Janus fixed-point,
time-reversible integrator of the rebound N-body framework) and proofs of
the specification claims about it.

Modelling conventions:
* C `double` values (positions, velocities, accelerations, `scale`, `dt`,
  time) are embedded as exact rationals `ℚ`; the claims under study are
  structural/algebraic and do not depend on floating-point rounding.
* The fixed-point storage integers (`struct reb_particle_int` fields, and
  the 128-bit accumulator used in the update) are embedded as unbounded `ℤ`.
  The spec (§7) treats fixed-point overflow as an out-of-scope operating
  constraint ("the caller selects `scale` and `dt` so that per-step
  increments stay within the representable integer range"), so the in-range
  behaviour is the mathematical integer behaviour.
* The C cast `(__int128)x` of a `double`, and the implicit conversion in
  `psi[i].x = ps[i].x*int_scale`, truncate toward zero; this is `ratTrunc`.
* `struct reb_particle_int` also carries integer velocity fields `vx,vy,vz`
  in the C header; they are written by `to_int` but never read on any code
  path (noted as an open question in the spec §9), and after the first
  generation rotation they hold copies of uninitialized storage.  The model
  therefore carries only the position fields, the ones every claim is about.
* Buffers are `List`s; a freed/NULL buffer is the empty list.  The C
  `memcpy` calls copy exactly `N` structs; the model copies whole lists and
  tracks the length invariant (`length = allocated_N = N`) through explicit
  hypotheses where a claim needs it.
* External collaborators are parameters: the companion probe stepper
  (`reb_step`) is an arbitrary function on simulation states, and the force
  evaluator (`reb_update_acceleration`) an arbitrary function on particle
  arrays that fills in acceleration fields.
-/

/-- Fixed-point particle state: the position fields of `struct
reb_particle_int` (integer lattice coordinates). -/
structure reb_particle_int where
  x : ℤ
  y : ℤ
  z : ℤ
deriving DecidableEq

/-- Real-valued particle state: the fields of `struct reb_particle` used by
this module (position, velocity, acceleration, mass). -/
structure reb_particle where
  x : ℚ
  y : ℚ
  z : ℚ
  vx : ℚ
  vy : ℚ
  vz : ℚ
  ax : ℚ
  ay : ℚ
  az : ℚ
  m : ℚ
deriving DecidableEq

/-- A triple of real values, used for per-body acceleration input to the
integer update. -/
structure reb_vec3 where
  x : ℚ
  y : ℚ
  z : ℚ
deriving DecidableEq

/-- C conversion of a real value to an integer (`(__int128)q` and the
implicit assignment conversion in `to_int`): truncation toward zero. -/
def ratTrunc (q : ℚ) : ℤ :=
  q.num.tdiv (q.den : ℤ)

/-- Embedding of `to_int`: quantize each coordinate by multiplying with
`int_scale` and truncating to an integer (C lines 43-52; the integer
velocity fields it also fills are never read, see module comment). -/
def to_int (ps : List reb_particle) (int_scale : ℚ) : List reb_particle_int :=
  ps.map fun p => ⟨ratTrunc (p.x * int_scale), ratTrunc (p.y * int_scale), ratTrunc (p.z * int_scale)⟩

/-- Embedding of `to_double`: overwrite each particle's position with the
decoded fixed-point position `psi[i]/int_scale`, leaving velocity, mass and
acceleration untouched (C lines 53-59). -/
def to_double (ps : List reb_particle) (psi : List reb_particle_int) (int_scale : ℚ) : List reb_particle :=
  List.zipWith (fun p q => { p with x := (q.x : ℚ) / int_scale, y := (q.y : ℚ) / int_scale, z := (q.z : ℚ) / int_scale }) ps psi

/-- Total embedding of `to_double` with an explicit guard on the division
by `int_scale`: the C code divides unconditionally, so the guarded variant
returns `none` exactly when the divisor is zero. -/
def to_doubleChecked (ps : List reb_particle) (psi : List reb_particle_int) (int_scale : ℚ) : Option (List reb_particle) :=
  if int_scale = 0 then none else some (to_double ps psi int_scale)

/-- The integer update of the core step (C lines 95-99): for each body,
`next = -prev + 2*curr + trunc(int_scale*dt*dt*a)` on each axis
independently.  The `-prev + 2*curr` part is integer arithmetic on `ℤ`; the
forcing term is one real product converted to an integer exactly once. -/
def nextBuf (int_scale dt : ℚ) : List reb_particle_int → List reb_particle_int → List reb_vec3 → List reb_particle_int
  | [], _, _ => []
  | _ :: _, [], _ => []
  | _ :: _, _ :: _, [] => []
  | p :: ps, c :: cs, a :: tl =>
      ⟨-p.x + 2 * c.x + ratTrunc (int_scale * dt * dt * a.x),
       -p.y + 2 * c.y + ratTrunc (int_scale * dt * dt * a.y),
       -p.z + 2 * c.z + ratTrunc (int_scale * dt * dt * a.z)⟩ :: nextBuf int_scale dt ps cs tl

/-- Central-difference velocity reconstruction (C lines 100-104): each
particle's velocity becomes `(next - prev)/int_scale/2/dt` per axis. -/
def velocityRecon (int_scale dt : ℚ) : List reb_particle → List reb_particle_int → List reb_particle_int → List reb_particle
  | [], _, _ => []
  | _ :: _, [], _ => []
  | _ :: _, _ :: _, [] => []
  | p :: ps, n :: ns, q :: qs =>
      { p with vx := ((n.x - q.x : ℤ) : ℚ) / int_scale / 2 / dt,
               vy := ((n.y - q.y : ℤ) : ℚ) / int_scale / 2 / dt,
               vz := ((n.z - q.z : ℤ) : ℚ) / int_scale / 2 / dt } :: velocityRecon int_scale dt ps ns qs

/-- Total embedding of the velocity reconstruction with explicit guards on
the divisions by `int_scale` and `dt` (the C code divides unconditionally). -/
def velocityReconChecked (int_scale dt : ℚ) (ps : List reb_particle) (ns qs : List reb_particle_int) : Option (List reb_particle) :=
  if int_scale = 0 ∨ dt = 0 then none else some (velocityRecon int_scale dt ps ns qs)

/-- The two generation buffers the integer core acts on: `p_prev` and
`p_curr` (position parts). -/
structure janusState where
  p_prev : List reb_particle_int
  p_curr : List reb_particle_int
deriving DecidableEq

/-- One core step on given acceleration values: the integer update followed
by the generation rotation `prev ← curr`, `curr ← next` (C lines 95-106). -/
def coreUpdate (int_scale dt : ℚ) (a : List reb_vec3) (s : janusState) : janusState :=
  ⟨s.p_curr, nextBuf int_scale dt s.p_prev s.p_curr a⟩

/-- One core step where the accelerations are reproduced as a function of
the current generation buffer (the positions handed to the force evaluator
are decoded from `p_curr`, so a deterministic evaluator yields the same
acceleration values whenever the same quantized state is revisited). -/
def coreStep (int_scale dt : ℚ) (A : List reb_particle_int → List reb_vec3) (s : janusState) : janusState :=
  coreUpdate int_scale dt (A s.p_curr) s

/-- The generation exchange of `reb_integrator_janus_flip` restricted to
the two buffers the integer core reads. -/
def flipCore (s : janusState) : janusState :=
  ⟨s.p_curr, s.p_prev⟩

/-- Host run status (`r->status`).  The host enumeration lives in the
external header; the model keeps the distinguished value `REB_RUNNING`
written by the source (line 83) plus representative other states. -/
inductive reb_status where
  | running
  | paused
  | finished
deriving DecidableEq

/-- Host integrator selector (`r->integrator`).  The model keeps the two
values the source writes (`REB_INTEGRATOR_WHFAST` line 79,
`REB_INTEGRATOR_JANUS` line 86) plus a representative other scheme. -/
inductive reb_integrator where
  | janus
  | whfast
  | other
deriving DecidableEq

/-- The Janus integrator instance state `struct
reb_simulation_integrator_janus`: the scale, the stored particle count, and
the four generation buffers (`p_prevrecalc` is the scratch buffer). -/
structure reb_simulation_integrator_janus where
  scale : ℚ
  allocated_N : ℕ
  p_prev : List reb_particle_int
  p_curr : List reb_particle_int
  p_next : List reb_particle_int
  p_prevrecalc : List reb_particle_int
deriving DecidableEq

/-- The host simulation context `struct reb_simulation`, restricted to the
fields this module reads or writes. -/
structure reb_simulation where
  t : ℚ
  dt : ℚ
  N : ℕ
  particles : List reb_particle
  status : reb_status
  integrator : reb_integrator
  gravity_ignore_terms : ℕ
  ri_janus : reb_simulation_integrator_janus
deriving DecidableEq

/-- Acceleration values carried by a particle array, as consumed by the
integer update (C reads `r->particles[i].ax` etc.). -/
def accelOf (ps : List reb_particle) : List reb_vec3 :=
  ps.map fun p => ⟨p.ax, p.ay, p.az⟩

/-- The Bootstrap branch of `reb_integrator_janus_part1` (C lines 67-89):
snapshot the particle array, resize the buffers, encode `curr`, redirect
the host to the companion scheme with negated `dt`, run one probe step
(`reb_step`, the external parameter `step_fn`), encode `prev` from its
result, then write back the saved time, timestep and particle array and set
the status and integrator selector to `REB_RUNNING` and
`REB_INTEGRATOR_JANUS`.  The C `realloc` leaves the contents of `p_next`
and `p_prevrecalc` unspecified; the model leaves them unchanged, which is
sound because every read of them in the source is preceded by a full
write. -/
def janusBootstrap (step_fn : reb_simulation → reb_simulation) (r : reb_simulation) : reb_simulation :=
  let t := r.t
  let dt := r.dt
  let N := r.N
  let int_scale := r.ri_janus.scale
  let orig := r.particles
  let r1 := { r with ri_janus := { r.ri_janus with
                allocated_N := N,
                p_curr := to_int r.particles int_scale } }
  let r2 := step_fn { r1 with integrator := reb_integrator.whfast, dt := -dt }
  { r2 with
    ri_janus := { r2.ri_janus with p_prev := to_int r2.particles int_scale },
    status := reb_status.running,
    t := t,
    dt := dt,
    integrator := reb_integrator.janus,
    particles := orig }

/-- Embedding of `reb_integrator_janus_part1` (C lines 61-110).  External
collaborators are parameters: `step_fn` is the host's generic one-step
entry point (`reb_step`) used by the bootstrap probe, and `acc` is the
force evaluator (`reb_update_acceleration`), a function that fills the
acceleration fields of the particle array.  The step: bootstrap if the
stored count differs from `N`, decode `curr` into the particle positions,
evaluate accelerations, run the integer update into `p_next`, reconstruct
velocities from `p_next - p_prev`, rotate generations, advance time. -/
def reb_integrator_janus_part1 (step_fn : reb_simulation → reb_simulation)
    (acc : List reb_particle → List reb_particle) (r : reb_simulation) : reb_simulation :=
  let t := r.t
  let dt := r.dt
  let N := r.N
  let int_scale := r.ri_janus.scale
  let r1 := if r.ri_janus.allocated_N = N then r else janusBootstrap step_fn r
  let ps0 := to_double r1.particles r1.ri_janus.p_curr int_scale
  let ps1 := acc ps0
  let nxt := nextBuf int_scale dt r1.ri_janus.p_prev r1.ri_janus.p_curr (accelOf ps1)
  let ps2 := velocityRecon int_scale dt ps1 nxt r1.ri_janus.p_prev
  { r1 with
    gravity_ignore_terms := 0,
    particles := ps2,
    t := t + dt,
    ri_janus := { r1.ri_janus with
      p_next := nxt,
      p_prev := r1.ri_janus.p_curr,
      p_curr := nxt } }

/-- Embedding of `reb_integrator_janus_flip` (C lines 111-117): the
three-way shuffle `scratch ← curr; curr ← prev; prev ← scratch`, i.e. an
exchange of `prev` and `curr` through the scratch buffer, which is left
holding the old `curr`.  The C `memcpy`s copy exactly `N` structs; the
model copies the whole buffers, which coincides under the length invariant
`length = allocated_N = N`. -/
def reb_integrator_janus_flip (r : reb_simulation) : reb_simulation :=
  { r with ri_janus := { r.ri_janus with
      p_prevrecalc := r.ri_janus.p_curr,
      p_curr := r.ri_janus.p_prev,
      p_prev := r.ri_janus.p_curr } }

/-- Embedding of `reb_integrator_janus_reset` (C lines 123-138): clear
`allocated_N` and free `p_prev`, `p_prevrecalc` and `p_curr` (a freed/NULL
buffer is the empty list).  Note the source does not free `p_next`. -/
def reb_integrator_janus_reset (r : reb_simulation) : reb_simulation :=
  { r with ri_janus := { r.ri_janus with
      allocated_N := 0,
      p_prev := [],
      p_prevrecalc := [],
      p_curr := [] } }

/-- Run `n` consecutive calls of `reb_integrator_janus_part1` and count at
how many of them the reallocation/bootstrap branch fires (the source's
condition `ri_janus->allocated_N != N`, line 67).  Returns the final state
and the bootstrap count. -/
def janusRun (step_fn : reb_simulation → reb_simulation)
    (acc : List reb_particle → List reb_particle) : ℕ → reb_simulation → reb_simulation × ℕ
  | 0, r => (r, 0)
  | Nat.succ n, r =>
      let hit : ℕ := if r.ri_janus.allocated_N = r.N then 0 else 1
      let rest := janusRun step_fn acc n (reb_integrator_janus_part1 step_fn acc r)
      (rest.1, hit + rest.2)

/-- A concrete particle used by the closed witness and counterexample
statements. -/
def pEx : reb_particle :=
  ⟨1, 0, 0, 0, 1, 0, 0, 0, 0, 1⟩

/-- A concrete simulation state: one particle, empty Janus buffers
(`allocated_N = 0`), ready for a first step. -/
def simEx : reb_simulation :=
  { t := 0
    dt := 1
    N := 1
    particles := [pEx]
    status := reb_status.running
    integrator := reb_integrator.janus
    gravity_ignore_terms := 0
    ri_janus := ⟨100, 0, [], [], [], []⟩ }

/-- A concrete simulation state with populated generation buffers and a
non-running status, used to probe the bootstrap restore and reset. -/
def simEx2 : reb_simulation :=
  { t := 5
    dt := 1
    N := 1
    particles := [pEx]
    status := reb_status.paused
    integrator := reb_integrator.janus
    gravity_ignore_terms := 0
    ri_janus := ⟨100, 1, [⟨1, 2, 3⟩], [⟨4, 5, 6⟩], [⟨7, 8, 9⟩], [⟨0, 0, 0⟩]⟩ }

/-- A force evaluator producing zero acceleration for every body, used in
closed statements about the core step. -/
def accelZeroFn : List reb_particle_int → List reb_vec3 :=
  fun b => b.map fun _ => ⟨0, 0, 0⟩

/-- Truncating zero gives zero. -/
lemma ratTrunc_zero : ratTrunc 0 = 0 := by
  simp [ratTrunc]

/-- The integer update depends on the timestep only through `dt*dt`, so it
is invariant under negating `dt`. -/
lemma nextBuf_neg_dt (int_scale dt : ℚ) (p c : List reb_particle_int) (a : List reb_vec3) :
    nextBuf int_scale (-dt) p c a = nextBuf int_scale dt p c a := by
  induction p generalizing c a with
  | nil => cases c <;> cases a <;> rfl
  | cons hd tl ih =>
      cases c with
      | nil => cases a <;> rfl
      | cons chd ctl =>
          cases a with
          | nil => rfl
          | cons ahd atl =>
              have harg : ∀ q : ℚ, int_scale * -dt * -dt * q = int_scale * dt * dt * q := by
                intro q; ring
              simp only [nextBuf, harg, ih]

/-- The core step is invariant under negating `dt`. -/
lemma coreStep_neg_dt (int_scale dt : ℚ) (A : List reb_particle_int → List reb_vec3) :
    coreStep int_scale (-dt) A = coreStep int_scale dt A := by
  funext s
  simp [coreStep, coreUpdate, nextBuf_neg_dt]

/-- Length of the integer update output: the minimum of the three input
lengths (in the source all three are `N`). -/
lemma nextBuf_length (int_scale dt : ℚ) (p c : List reb_particle_int) (a : List reb_vec3) :
    (nextBuf int_scale dt p c a).length = min p.length (min c.length a.length) := by
  induction p generalizing c a with
  | nil => cases c <;> cases a <;> simp [nextBuf]
  | cons hd tl ih =>
      cases c with
      | nil => cases a <;> simp [nextBuf]
      | cons chd ctl =>
          cases a with
          | nil => simp [nextBuf]
          | cons ahd atl =>
              simp only [nextBuf, List.length_cons, ih]
              omega

/-- Applying the integer update to its own output (with the same `curr`
and acceleration values) recovers the previous generation: the
`a + b - b = a` cancellation that makes the lattice scheme invertible. -/
lemma nextBuf_nextBuf (int_scale dt : ℚ) (p c : List reb_particle_int) (a : List reb_vec3)
    (hc : p.length = c.length) (ha : p.length = a.length) :
    nextBuf int_scale dt (nextBuf int_scale dt p c a) c a = p := by
  induction p generalizing c a with
  | nil =>
      cases c <;> cases a <;> rfl
  | cons hd tl ih =>
      cases c with
      | nil => simp at hc
      | cons chd ctl =>
          cases a with
          | nil => simp at ha
          | cons ahd atl =>
              simp only [List.length_cons] at hc ha
              obtain ⟨hx, hy, hz⟩ := hd
              simp only [nextBuf, ih ctl atl (by omega) (by omega), List.cons.injEq, and_true,
                reb_particle_int.mk.injEq]
              refine ⟨?_, ?_, ?_⟩ <;> ring

/-- Well-formedness of a core state: the two generation buffers have equal
length. -/
def janusWF (s : janusState) : Prop :=
  s.p_prev.length = s.p_curr.length

/-- A core step preserves well-formedness when the acceleration function
is length-preserving, and keeps the common buffer length. -/
lemma coreStep_wf (int_scale dt : ℚ) (A : List reb_particle_int → List reb_vec3)
    (hA : ∀ b, (A b).length = b.length) (s : janusState) (hs : janusWF s) :
    janusWF (coreStep int_scale dt A s) ∧
      (coreStep int_scale dt A s).p_curr.length = s.p_curr.length := by
  unfold janusWF at hs ⊢
  simp [coreStep, coreUpdate, nextBuf_length, hA, hs]

/-- Iterated core steps preserve well-formedness. -/
lemma coreStep_iterate_wf (int_scale dt : ℚ) (A : List reb_particle_int → List reb_vec3)
    (hA : ∀ b, (A b).length = b.length) (k : ℕ) (s : janusState) (hs : janusWF s) :
    janusWF ((coreStep int_scale dt A)^[k] s) := by
  induction k generalizing s with
  | zero => simpa
  | succ n ih =>
      rw [Function.iterate_succ_apply]
      exact ih _ (coreStep_wf int_scale dt A hA s hs).1

/-- One step, then a flip, then one more step, is exactly a flip: the
rotation plus cancellation undoes the previous update. -/
lemma coreStep_flip_coreStep (int_scale dt : ℚ) (A : List reb_particle_int → List reb_vec3)
    (hA : ∀ b, (A b).length = b.length) (s : janusState) (hs : janusWF s) :
    coreStep int_scale dt A (flipCore (coreStep int_scale dt A s)) = flipCore s := by
  obtain ⟨p, c⟩ := s
  unfold janusWF at hs
  simp only [coreStep, coreUpdate, flipCore]
  simp only at hs
  congr 1
  exact nextBuf_nextBuf int_scale dt p c (A c) hs (by rw [hs, hA])

/-- After any `part1` call, the stored particle count matches the host
count, provided the companion probe stepper preserves the host particle
count and the Janus instance state (as the WHFast companion does). -/
lemma part1_allocated_eq (step_fn : reb_simulation → reb_simulation)
    (acc : List reb_particle → List reb_particle)
    (hN : ∀ s, (step_fn s).N = s.N) (hJ : ∀ s, (step_fn s).ri_janus = s.ri_janus)
    (r : reb_simulation) :
    (reb_integrator_janus_part1 step_fn acc r).ri_janus.allocated_N
      = (reb_integrator_janus_part1 step_fn acc r).N := by
  by_cases h : r.ri_janus.allocated_N = r.N <;>
    simp [reb_integrator_janus_part1, janusBootstrap, h, hN, hJ]

/-- Once the stored count matches the host count, no later step of a run
fires the bootstrap branch. -/
lemma janusRun_count_zero (step_fn : reb_simulation → reb_simulation)
    (acc : List reb_particle → List reb_particle)
    (hN : ∀ s, (step_fn s).N = s.N) (hJ : ∀ s, (step_fn s).ri_janus = s.ri_janus) :
    ∀ (n : ℕ) (r : reb_simulation), r.ri_janus.allocated_N = r.N →
      (janusRun step_fn acc n r).2 = 0 := by
  intro n
  induction n with
  | zero => intro r _; rfl
  | succ m ih =>
      intro r hr
      simp only [janusRun, hr, if_pos, Nat.zero_add]
      exact ih _ (part1_allocated_eq step_fn acc hN hJ r)

/-- C7: `reb_integrator_janus_flip` exchanges the contents of the `prev`
and `curr` generation buffers (through the scratch buffer, which is left
holding the old `curr`) and leaves the `next` buffer and the host's time
unchanged, for every populated pair of buffers. -/
theorem janus_flip_swaps (r : reb_simulation)
    (hp : r.ri_janus.p_prev.length = r.N) (hc : r.ri_janus.p_curr.length = r.N) :
    (reb_integrator_janus_flip r).ri_janus.p_prev = r.ri_janus.p_curr ∧
    (reb_integrator_janus_flip r).ri_janus.p_curr = r.ri_janus.p_prev ∧
    (reb_integrator_janus_flip r).ri_janus.p_prevrecalc = r.ri_janus.p_curr ∧
    (reb_integrator_janus_flip r).ri_janus.p_next = r.ri_janus.p_next ∧
    (reb_integrator_janus_flip r).t = r.t :=
  ⟨rfl, rfl, rfl, rfl, rfl⟩

/-- Witness for `janus_flip_swaps` at a concrete populated state. -/
theorem janus_flip_swaps_witness :
    (reb_integrator_janus_flip simEx2).ri_janus.p_prev = simEx2.ri_janus.p_curr ∧
    (reb_integrator_janus_flip simEx2).ri_janus.p_curr = simEx2.ri_janus.p_prev ∧
    (reb_integrator_janus_flip simEx2).ri_janus.p_prevrecalc = simEx2.ri_janus.p_curr ∧
    (reb_integrator_janus_flip simEx2).ri_janus.p_next = simEx2.ri_janus.p_next ∧
    (reb_integrator_janus_flip simEx2).t = simEx2.t :=
  janus_flip_swaps simEx2 rfl rfl

/-- C9: applying `reb_integrator_janus_flip` twice restores the `prev` and
`curr` buffers bit-identically; the scratch buffer again serves as scratch,
ending with a copy of the (restored) `prev` contents. -/
theorem janus_flip_involution (r : reb_simulation)
    (hp : r.ri_janus.p_prev.length = r.N) (hc : r.ri_janus.p_curr.length = r.N) :
    (reb_integrator_janus_flip (reb_integrator_janus_flip r)).ri_janus.p_prev = r.ri_janus.p_prev ∧
    (reb_integrator_janus_flip (reb_integrator_janus_flip r)).ri_janus.p_curr = r.ri_janus.p_curr ∧
    (reb_integrator_janus_flip (reb_integrator_janus_flip r)).ri_janus.p_prevrecalc = r.ri_janus.p_prev :=
  ⟨rfl, rfl, rfl⟩

/-- Witness for `janus_flip_involution` at a concrete populated state. -/
theorem janus_flip_involution_witness :
    (reb_integrator_janus_flip (reb_integrator_janus_flip simEx2)).ri_janus.p_prev = simEx2.ri_janus.p_prev ∧
    (reb_integrator_janus_flip (reb_integrator_janus_flip simEx2)).ri_janus.p_curr = simEx2.ri_janus.p_curr ∧
    (reb_integrator_janus_flip (reb_integrator_janus_flip simEx2)).ri_janus.p_prevrecalc = simEx2.ri_janus.p_prev :=
  janus_flip_involution simEx2 rfl rfl

/-- C3 (code-bug evidence): at a state with all four generation buffers
populated, `reb_integrator_janus_reset` clears `allocated_N`, frees `prev`,
`scratch` and `curr`, and is idempotent — but it leaves the `next` buffer
allocated: the source's reset omits `p_next`, contradicting the spec's
"releases all four generation buffers". -/
theorem janus_reset_leaves_next :
    (reb_integrator_janus_reset simEx2).ri_janus.allocated_N = 0 ∧
    (reb_integrator_janus_reset simEx2).ri_janus.p_prev = [] ∧
    (reb_integrator_janus_reset simEx2).ri_janus.p_prevrecalc = [] ∧
    (reb_integrator_janus_reset simEx2).ri_janus.p_curr = [] ∧
    (reb_integrator_janus_reset simEx2).ri_janus.p_next = [⟨7, 8, 9⟩] ∧
    reb_integrator_janus_reset (reb_integrator_janus_reset simEx2) = reb_integrator_janus_reset simEx2 :=
  ⟨rfl, rfl, rfl, rfl, rfl, rfl⟩

/-- C10: under the preconditions `scale ≠ 0` and `dt ≠ 0`, the guarded
total embeddings of the position decode and of the central-difference
velocity reconstruction never take their division-by-zero branch: they
return exactly the unguarded values. -/
theorem janus_division_guards_unreachable (int_scale dt : ℚ) (ps : List reb_particle)
    (psi ns qs : List reb_particle_int) (hs : int_scale ≠ 0) (hd : dt ≠ 0) :
    to_doubleChecked ps psi int_scale = some (to_double ps psi int_scale) ∧
    velocityReconChecked int_scale dt ps ns qs = some (velocityRecon int_scale dt ps ns qs) := by
  constructor
  · simp [to_doubleChecked, hs]
  · simp [velocityReconChecked, hs, hd]

/-- Witness for `janus_division_guards_unreachable` at concrete inputs. -/
theorem janus_division_guards_unreachable_witness :
    to_doubleChecked [pEx] [⟨1, 2, 3⟩] 100 = some (to_double [pEx] [⟨1, 2, 3⟩] 100) ∧
    velocityReconChecked 100 1 [pEx] [⟨4, 5, 6⟩] [⟨1, 2, 3⟩]
      = some (velocityRecon 100 1 [pEx] [⟨4, 5, 6⟩] [⟨1, 2, 3⟩]) :=
  janus_division_guards_unreachable 100 1 [pEx] [⟨1, 2, 3⟩] [⟨4, 5, 6⟩] [⟨1, 2, 3⟩]
    (by norm_num) (by norm_num)

/-- C8: the integer update and generation rotation are deterministic: two
runs with identical scale, timestep, generation-buffer contents and
acceleration inputs produce bit-identical `next` values and bit-identical
rotated `prev`/`curr` buffers. -/
theorem janus_core_deterministic (sc1 sc2 dt1 dt2 : ℚ)
    (p1 p2 c1 c2 : List reb_particle_int) (a1 a2 : List reb_vec3)
    (hsc : sc1 = sc2) (hdt : dt1 = dt2) (hp : p1 = p2) (hc : c1 = c2) (ha : a1 = a2) :
    nextBuf sc1 dt1 p1 c1 a1 = nextBuf sc2 dt2 p2 c2 a2 ∧
    coreUpdate sc1 dt1 a1 ⟨p1, c1⟩ = coreUpdate sc2 dt2 a2 ⟨p2, c2⟩ := by
  subst hsc; subst hdt; subst hp; subst hc; subst ha
  exact ⟨rfl, rfl⟩

/-- Witness for `janus_core_deterministic` at concrete equal inputs. -/
theorem janus_core_deterministic_witness :
    nextBuf 100 1 [⟨1, 2, 3⟩] [⟨4, 5, 6⟩] [⟨0, 0, 0⟩]
      = nextBuf 100 1 [⟨1, 2, 3⟩] [⟨4, 5, 6⟩] [⟨0, 0, 0⟩] ∧
    coreUpdate 100 1 [⟨0, 0, 0⟩] ⟨[⟨1, 2, 3⟩], [⟨4, 5, 6⟩]⟩
      = coreUpdate 100 1 [⟨0, 0, 0⟩] ⟨[⟨1, 2, 3⟩], [⟨4, 5, 6⟩]⟩ :=
  janus_core_deterministic 100 100 1 1 [⟨1, 2, 3⟩] [⟨1, 2, 3⟩] [⟨4, 5, 6⟩] [⟨4, 5, 6⟩]
    [⟨0, 0, 0⟩] [⟨0, 0, 0⟩] rfl rfl rfl rfl rfl

/-- C6: over a run of `n ≥ 1` consecutive steps whose companion probe
stepper preserves the host particle count and the Janus instance state, the
bootstrap branch (and with it the single companion probe step) fires
exactly once when the stored count initially differs from the host count
(including first use, `allocated_N = 0`), and never fires otherwise. -/
theorem janus_bootstrap_once (step_fn : reb_simulation → reb_simulation)
    (acc : List reb_particle → List reb_particle)
    (hN : ∀ s, (step_fn s).N = s.N) (hJ : ∀ s, (step_fn s).ri_janus = s.ri_janus)
    (n : ℕ) (hn : 1 ≤ n) (r : reb_simulation) :
    (janusRun step_fn acc n r).2 = if r.ri_janus.allocated_N = r.N then 0 else 1 := by
  obtain ⟨m, rfl⟩ : ∃ m, n = m + 1 := ⟨n - 1, by omega⟩
  have hrest := janusRun_count_zero step_fn acc hN hJ m
    (reb_integrator_janus_part1 step_fn acc r) (part1_allocated_eq step_fn acc hN hJ r)
  by_cases h : r.ri_janus.allocated_N = r.N <;>
    simp [janusRun, h, hrest]

/-- Witness for `janus_bootstrap_once`: two steps from the fresh concrete
state with identity collaborators fire the bootstrap exactly once. -/
theorem janus_bootstrap_once_witness :
    (janusRun id id 2 simEx).2 = if simEx.ri_janus.allocated_N = simEx.N then 0 else 1 :=
  janus_bootstrap_once id id (fun _ => rfl) (fun _ => rfl) 2 (by norm_num) simEx

/-- C5: with zero acceleration, a single particle advances its fixed-point
position by exactly the constant integer increment `curr - prev` on every
step: after `n` steps the buffers hold exactly the closed-form linear
motion `p + n*(c - p)` on each axis, with zero accumulated drift. -/
theorem janus_free_particle_linear (int_scale dt : ℚ) (p c : reb_particle_int) (n : ℕ) :
    (coreStep int_scale dt (fun _ => [⟨0, 0, 0⟩]))^[n] ⟨[p], [c]⟩ =
      ⟨[⟨p.x + (n : ℤ) * (c.x - p.x), p.y + (n : ℤ) * (c.y - p.y), p.z + (n : ℤ) * (c.z - p.z)⟩],
       [⟨p.x + ((n : ℤ) + 1) * (c.x - p.x), p.y + ((n : ℤ) + 1) * (c.y - p.y),
         p.z + ((n : ℤ) + 1) * (c.z - p.z)⟩]⟩ := by
  obtain ⟨px, py, pz⟩ := p
  obtain ⟨cx, cy, cz⟩ := c
  induction n with
  | zero =>
      simp only [Function.iterate_zero, id_eq, Nat.cast_zero, janusState.mk.injEq,
        List.cons.injEq, reb_particle_int.mk.injEq, and_true]
      refine ⟨⟨?_, ?_, ?_⟩, ?_, ?_, ?_⟩ <;> ring
  | succ m ih =>
      rw [Function.iterate_succ_apply', ih]
      simp only [coreStep, coreUpdate, nextBuf, mul_zero, ratTrunc_zero, Nat.cast_succ,
        janusState.mk.injEq, List.cons.injEq, reb_particle_int.mk.injEq, and_true]
      refine ⟨trivial, ?_, ?_, ?_⟩ <;> ring

/-- C2: for each body `i` and each spatial axis independently, the integer
update computes `next = -prev + 2*curr + trunc(int_scale*dt*dt*a)`: the
`-prev + 2*curr` part is integer arithmetic on the lattice values, and the
forcing term is one real product passed through the real-to-integer
conversion exactly once. -/
theorem janus_next_formula (int_scale dt : ℚ) (p c : List reb_particle_int)
    (a : List reb_vec3) (i : ℕ) (hp : i < p.length) (hc : i < c.length) (ha : i < a.length) :
    (nextBuf int_scale dt p c a)[i]? =
      some ⟨-(p.get ⟨i, hp⟩).x + 2 * (c.get ⟨i, hc⟩).x + ratTrunc (int_scale * dt * dt * (a.get ⟨i, ha⟩).x),
            -(p.get ⟨i, hp⟩).y + 2 * (c.get ⟨i, hc⟩).y + ratTrunc (int_scale * dt * dt * (a.get ⟨i, ha⟩).y),
            -(p.get ⟨i, hp⟩).z + 2 * (c.get ⟨i, hc⟩).z + ratTrunc (int_scale * dt * dt * (a.get ⟨i, ha⟩).z)⟩ := by
  induction p generalizing c a i with
  | nil => simp at hp
  | cons hd tl ih =>
      cases c with
      | nil => simp at hc
      | cons chd ctl =>
          cases a with
          | nil => simp at ha
          | cons ahd atl =>
              cases i with
              | zero => simp [nextBuf]
              | succ j =>
                  simp only [List.length_cons, Nat.succ_lt_succ_iff] at hp hc ha
                  simpa [nextBuf] using ih ctl atl j hp hc ha

/-- Witness for `janus_next_formula` at a concrete body and buffers. -/
theorem janus_next_formula_witness :
    (nextBuf 1 1 [⟨1, 2, 3⟩] [⟨4, 5, 6⟩] [⟨0, 0, 0⟩])[0]? = some ⟨7, 8, 9⟩ := by
  have h := janus_next_formula 1 1 [⟨1, 2, 3⟩] [⟨4, 5, 6⟩] [⟨0, 0, 0⟩] 0
    (by norm_num) (by norm_num) (by norm_num)
  simpa [mul_zero, ratTrunc_zero] using h

/-- C4 counterexample: at a concrete prior host state whose run status is
not `REB_RUNNING`, the bootstrap's restore phase leaves the status changed
(the source writes the constant `REB_RUNNING` instead of the snapshot
value), so the five fields are not all equal to their start-of-bootstrap
values for arbitrary prior host states. -/
theorem janus_bootstrap_status_counterexample :
    (janusBootstrap id simEx2).status ≠ simEx2.status := by
  simp [janusBootstrap, simEx2]

/-- C4 (amended): after the bootstrap probe step completes, the host's
time, timestep and particle array are restored from the snapshot for every
prior state and every probe stepper; the run status and integrator selector
are set to the constants `REB_RUNNING` and `REB_INTEGRATOR_JANUS`, which
equal their prior values whenever bootstrap is entered normally (status
running, integrator janus) — under that precondition all five fields equal
their start-of-bootstrap values. -/
theorem janus_bootstrap_restores_amended (step_fn : reb_simulation → reb_simulation)
    (r : reb_simulation) (hs : r.status = reb_status.running)
    (hi : r.integrator = reb_integrator.janus) :
    (janusBootstrap step_fn r).t = r.t ∧
    (janusBootstrap step_fn r).dt = r.dt ∧
    (janusBootstrap step_fn r).status = r.status ∧
    (janusBootstrap step_fn r).integrator = r.integrator ∧
    (janusBootstrap step_fn r).particles = r.particles := by
  refine ⟨rfl, rfl, ?_, ?_, rfl⟩
  · rw [hs]; rfl
  · rw [hi]; rfl

/-- Witness for `janus_bootstrap_restores_amended` at a concrete normally
entered state with the identity probe. -/
theorem janus_bootstrap_restores_amended_witness :
    (janusBootstrap id simEx).t = simEx.t ∧
    (janusBootstrap id simEx).dt = simEx.dt ∧
    (janusBootstrap id simEx).status = simEx.status ∧
    (janusBootstrap id simEx).integrator = simEx.integrator ∧
    (janusBootstrap id simEx).particles = simEx.particles :=
  janus_bootstrap_restores_amended id simEx rfl rfl

/-- C1 counterexample: for a concrete two-generation state, one forward
core step, a flip, a `dt` negation and one more core step do not return the
generation buffers to their original contents: the final state is the
flipped original, not the original. -/
theorem janus_reversibility_counterexample :
    (coreStep 1 (-1) accelZeroFn)^[1]
        (flipCore ((coreStep 1 1 accelZeroFn)^[1] ⟨[⟨0, 0, 0⟩], [⟨1, 0, 0⟩]⟩))
      ≠ (⟨[⟨0, 0, 0⟩], [⟨1, 0, 0⟩]⟩ : janusState) := by
  decide

/-- C1 (amended): stepping the integer core forward `k` times with
accelerations reproduced as a function of the revisited quantized state,
applying the flip, negating `dt`, and stepping `k` more times yields
exactly the flip of the original state: the `prev` buffer then holds the
original quantized positions (the original `curr`) bit-for-bit, the `curr`
buffer the original `prev`, and one further flip restores the original
state bit-identically. -/
theorem janus_reversibility_amended (int_scale dt : ℚ)
    (A : List reb_particle_int → List reb_vec3) (hA : ∀ b, (A b).length = b.length)
    (k : ℕ) (s : janusState) (hs : janusWF s) :
    (coreStep int_scale (-dt) A)^[k] (flipCore ((coreStep int_scale dt A)^[k] s)) = flipCore s := by
  rw [coreStep_neg_dt]
  induction k with
  | zero => rfl
  | succ m ih =>
      have hu : janusWF ((coreStep int_scale dt A)^[m] s) :=
        coreStep_iterate_wf int_scale dt A hA m s hs
      calc (coreStep int_scale dt A)^[m + 1]
              (flipCore ((coreStep int_scale dt A)^[m + 1] s))
          = (coreStep int_scale dt A)^[m]
              (coreStep int_scale dt A (flipCore (coreStep int_scale dt A
                ((coreStep int_scale dt A)^[m] s)))) := by
            rw [Function.iterate_succ_apply (coreStep int_scale dt A) m,
              Function.iterate_succ_apply' (coreStep int_scale dt A) m s]
        _ = (coreStep int_scale dt A)^[m] (flipCore ((coreStep int_scale dt A)^[m] s)) := by
            rw [coreStep_flip_coreStep int_scale dt A hA _ hu]
        _ = flipCore s := ih

/-- Witness for `janus_reversibility_amended` at a concrete state, `k = 2`,
zero accelerations. -/
theorem janus_reversibility_amended_witness :
    (coreStep 1 (-1) accelZeroFn)^[2]
        (flipCore ((coreStep 1 1 accelZeroFn)^[2] ⟨[⟨0, 0, 0⟩], [⟨1, 0, 0⟩]⟩))
      = flipCore ⟨[⟨0, 0, 0⟩], [⟨1, 0, 0⟩]⟩ :=
  janus_reversibility_amended 1 1 accelZeroFn (fun b => by simp [accelZeroFn]) 2
    ⟨[⟨0, 0, 0⟩], [⟨1, 0, 0⟩]⟩ rfl
